import Mathlib

/-
Verification of the ProdStarterHub FastAPI template
(src/templates/api/fastapi-python-api/app/main.py).

Shallow embedding: the module-level mutable database singleton `_db` is
passed explicitly as an `Option Database`; async handlers become pure
functions from the database state (and an uptime measurement, standing in
for `time.time() - START_TIME`) to responses; a raised `HTTPException`
becomes the `Except.error` branch of a handler result; elapsed wall-clock
latency is an abstract `Nat` measurement supplied to the middleware.
-/

namespace ProdStarter

/-- JSON values, as produced by the service's JSON response bodies. -/
inductive Json where
  | str (s : String)
  | num (n : Int)
  | bool (b : Bool)
  | obj (fields : List (String × Json))

/-- A response body: either a JSON document or plain text. -/
inductive Body where
  | json (j : Json)
  | text (s : String)

/-- An HTTP response: status code plus body. -/
structure Response where
  status_code : Nat
  body : Body

/-- `fastapi.HTTPException(status_code=..., detail=...)` as raised by handlers. -/
structure HTTPException where
  status_code : Nat
  detail : String

/-- A handler either returns a response or raises an `HTTPException`. -/
abbrev HandlerResult := Except HTTPException Response

/-- Field lookup in a JSON object (none on non-objects). -/
def Json.lookup (j : Json) (k : String) : Option Json :=
  match j with
  | .obj fields => fields.lookup k
  | _ => none

/-- Lookup of a top-level field in a response's JSON body. -/
def Response.bodyLookup (r : Response) (k : String) : Option Json :=
  match r.body with
  | .json j => j.lookup k
  | .text _ => none

/-- FastAPI's rendering of a handler result: a raised `HTTPException`
becomes a JSON response with the exception's status and a detail field. -/
def render : HandlerResult → Response
  | .ok r => r
  | .error e => { status_code := e.status_code, body := .json (.obj [("detail", .str e.detail)]) }

/-- The `Database` placeholder client: a DSN and a `connected` flag
(main.py lines 126-144). -/
structure Database where
  dsn : Option String
  connected : Bool
deriving DecidableEq, Repr

/-- `Database.__init__`: stores the DSN and sets `connected = False`. -/
def Database.new (dsn : Option String) : Database :=
  { dsn := dsn, connected := false }

/-- `Database.connect`: sets `connected = True`. -/
def Database.connect (db : Database) : Database :=
  { db with connected := true }

/-- `Database.disconnect`: sets `connected = False`. -/
def Database.disconnect (db : Database) : Database :=
  { db with connected := false }

/-- `Database.is_healthy`: returns the `connected` flag. -/
def Database.is_healthy (db : Database) : Bool :=
  db.connected

/-- The `get_db` dependency (main.py lines 149-158): if the singleton `_db`
is `None`, construct a `Database` from `settings.DATABASE_DSN` and connect
it; yield the handle; the `finally` block deliberately does not disconnect.
Returns the yielded handle and the updated singleton. -/
def get_db (dsn : Option String) (g : Option Database) : Database × Option Database :=
  match g with
  | none =>
      let db := (Database.new dsn).connect
      (db, some db)
  | some db => (db, some db)

/-- The `/health` handler (main.py lines 228-240): composite check with
status, per-check detail and uptime in seconds. -/
def health (db : Database) (uptime : Nat) : Response :=
  let db_ok := db.is_healthy
  let status := if db_ok then "ok" else "fail"
  let code := if db_ok then 200 else 503
  { status_code := code
    body := .json (.obj
      [("status", .str status),
       ("checks", .obj [("database", .str (if db_ok then "ok" else "unhealthy"))]),
       ("uptime_seconds", .num (Int.ofNat uptime))]) }

/-- The `/live` handler (main.py lines 242-244): a constant plain-text
response, consulting nothing. -/
def live : Response :=
  { status_code := 200, body := .text "alive" }

/-- The `/ready` handler (main.py lines 246-251): plain "ready" when the
database is healthy, else raises a 503. -/
def ready (db : Database) : HandlerResult :=
  if db.is_healthy then .ok { status_code := 200, body := .text "ready" }
  else .error { status_code := 503, detail := "not ready" }

/-- The `/api/v1/items/{item_id}` handler (main.py lines 209-215). -/
def get_item (item_id : Int) (db : Database) : HandlerResult :=
  let healthy := db.is_healthy
  if !healthy then .error { status_code := 503, detail := "database unavailable" }
  else .ok { status_code := 200
             body := .json (.obj
               [("item_id", .num item_id), ("name", .str "example"), ("db", .bool healthy)]) }

/-- The routes the claims concern. -/
inductive Route where
  | health
  | live
  | ready
  | items (item_id : Int)

/-- Dispatch of one request: routes declared with `Depends(get_db)` first
run `get_db` (which may lazily construct and connect the singleton), then
the handler; `/live` has no dependency and leaves the singleton untouched.
Returns the handler result and the singleton after the request. -/
def serve (dsn : Option String) (uptime : Nat) (r : Route) (g : Option Database) :
    HandlerResult × Option Database :=
  match r with
  | .live => (.ok live, g)
  | .health =>
      let p := get_db dsn g
      (.ok (health p.1 uptime), p.2)
  | .ready =>
      let p := get_db dsn g
      (ready p.1, p.2)
  | .items i =>
      let p := get_db dsn g
      (get_item i p.1, p.2)

/-- The global exception handler (main.py lines 254-260), as a function of
the debug flag and the exception's text `str(exc)`. -/
def generic_exception_handler (debug : Bool) (excText : String) : Response :=
  if debug then { status_code := 500, body := .json (.obj [("detail", .str excText)]) }
  else { status_code := 500, body := .json (.obj [("detail", .str "Internal Server Error")]) }

/-- The two Prometheus instruments (main.py lines 114-119): a counter
labelled by (method, endpoint, http_status) and a latency gauge labelled by
endpoint. -/
structure Metrics where
  requestCount : String × String × String → Nat
  requestLatency : String → Option Nat

/-- One structured log line emitted by the middleware. -/
structure LogEntry where
  method : String
  path : String
  status_code : Nat
  latency : Nat
deriving DecidableEq, Repr

/-- The outcome of `call_next`: a response, or an exception propagating. -/
inductive Outcome where
  | ok (r : Response)
  | exc (e : String)

/-- The `status_code` local the middleware records: the response's status,
or 500 when `call_next` raised. -/
def observedStatus (callNext : Outcome) : Nat :=
  match callNext with
  | .ok r => r.status_code
  | .exc _ => 500

/-- The instrumentation middleware (main.py lines 263-289). The `finally`
block first attempts the counter increment and gauge set inside a
`try/except Exception: pass` (an exception at the increment skips the gauge
set; either failure is swallowed), then emits the log line OUTSIDE that
inner try, so a failure raised by `logger.info` propagates out of the
`finally`, replacing the in-flight return or exception. The three `Raises`
flags say whether the corresponding library call raises. -/
def add_metrics_and_logging (method endpoint : String) (latency : Nat)
    (callNext : Outcome) (incRaises setRaises logRaises : Bool)
    (m : Metrics) (log : List LogEntry) : Outcome × Metrics × List LogEntry :=
  let status_code := observedStatus callNext
  let label := (method, endpoint, toString status_code)
  let m1 :=
    if incRaises then m
    else { m with requestCount := fun l =>
            if l = label then m.requestCount l + 1 else m.requestCount l }
  let m2 :=
    if incRaises || setRaises then m1
    else { m1 with requestLatency := fun e =>
            if e = endpoint then some latency else m1.requestLatency e }
  if logRaises then (.exc "log emission failure", m2, log)
  else (callNext, m2,
        log ++ [{ method := method, path := endpoint, status_code := status_code, latency := latency }])

/-- The `Settings` configuration structure (main.py lines 43-68). -/
structure Settings where
  SERVICE_NAME : String
  ENVIRONMENT : String
  DEBUG : Bool
  CORS_ORIGINS : String
  METRICS_ENABLED : Bool
  DATABASE_DSN : Option String
  REDIS_DSN : Option String
  OTEL_ENABLED : Bool
  SENTRY_DSN : Option String
  HOST : String
  PORT : Int
deriving DecidableEq, Repr

/-- Pydantic v1 boolean coercion from an environment string: accepts
1/on/t/true/y/yes and 0/off/f/false/n/no, case-insensitively. -/
def parseBool (s : String) : Option Bool :=
  let t := s.trim.toLower
  if t = "1" ∨ t = "on" ∨ t = "t" ∨ t = "true" ∨ t = "y" ∨ t = "yes" then some true
  else if t = "0" ∨ t = "off" ∨ t = "f" ∨ t = "false" ∨ t = "n" ∨ t = "no" then some false
  else none

/-- A boolean `Field`: the default when the variable is unset, else the
coerced value, else a validation error. -/
def boolField (env : String → Option String) (name : String) (dflt : Bool) :
    Except String Bool :=
  match env name with
  | none => .ok dflt
  | some v =>
      match parseBool v with
      | some b => .ok b
      | none => .error (name ++ ": value could not be parsed to a boolean")

/-- An integer `Field`: the default when the variable is unset, else the
parsed value, else a validation error. -/
def intField (env : String → Option String) (name : String) (dflt : Int) :
    Except String Int :=
  match env name with
  | none => .ok dflt
  | some v =>
      match v.trim.toInt? with
      | some n => .ok n
      | none => .error (name ++ ": value is not a valid integer")

/-- `Settings()` construction from the environment (main.py lines 43-71):
every field falls back to its declared default when its variable is unset. -/
def Settings.ofEnv (env : String → Option String) : Except String Settings := do
  let debug ← boolField env "DEBUG" false
  let metricsEnabled ← boolField env "METRICS_ENABLED" true
  let otelEnabled ← boolField env "OTEL_ENABLED" false
  let port ← intField env "PORT" 8000
  return { SERVICE_NAME := (env "SERVICE_NAME").getD "prodstarter-fastapi"
           ENVIRONMENT := (env "ENVIRONMENT").getD "production"
           DEBUG := debug
           CORS_ORIGINS := (env "CORS_ORIGINS").getD ""
           METRICS_ENABLED := metricsEnabled
           DATABASE_DSN := env "DATABASE_DSN"
           REDIS_DSN := env "REDIS_DSN"
           OTEL_ENABLED := otelEnabled
           SENTRY_DSN := env "SENTRY_DSN"
           HOST := (env "HOST").getD "0.0.0.0"
           PORT := port }

/-- `os.environ.get("TRUSTED_HOSTS", "*")` in `create_app`
(main.py line 195). -/
def trustedHostsSetting (env : String → Option String) : String :=
  (env "TRUSTED_HOSTS").getD "*"

/-- The environment with every variable unset. -/
def emptyEnv : String → Option String := fun _ => none

/-- The `startup` hook (main.py lines 292-310): constructs and connects the
singleton if it does not exist yet. -/
def on_startup (dsn : Option String) (g : Option Database) : Option Database :=
  match g with
  | none => some ((Database.new dsn).connect)
  | some db => some db

/-- The `shutdown` hook (main.py lines 312-318): disconnects the singleton
only when one exists; the `None` branch touches nothing. -/
def on_shutdown (g : Option Database) : Option Database :=
  match g with
  | none => none
  | some db => some db.disconnect

end ProdStarter

namespace ProdStarter

/-- C1: For every request to GET /health and GET /ready, the response
status is 200 iff the database handle's state is Connected at the time the
handler checks it (the handle yielded by `get_db`), and 503 otherwise; the
/health body always carries the uptime in seconds and a status field that
is "ok" on 200 and "fail" on 503. -/
theorem health_ready_status_iff_connected (dsn : Option String) (uptime : Nat)
    (g : Option Database) :
    (render (serve dsn uptime .health g).1).status_code
      = (if (get_db dsn g).1.connected then 200 else 503) ∧
    (render (serve dsn uptime .ready g).1).status_code
      = (if (get_db dsn g).1.connected then 200 else 503) ∧
    (render (serve dsn uptime .health g).1).bodyLookup "uptime_seconds"
      = some (.num (Int.ofNat uptime)) ∧
    (render (serve dsn uptime .health g).1).bodyLookup "status"
      = some (.str (if (get_db dsn g).1.connected then "ok" else "fail")) := by
  cases g with
  | none => exact ⟨rfl, rfl, rfl, rfl⟩
  | some db =>
      rcases db with ⟨d, c⟩
      cases c <;> exact ⟨rfl, rfl, rfl, rfl⟩

/-- C2: GET /api/v1/items/{id} on an unhealthy handle responds 503 with a
body containing "database unavailable"; on a Connected handle it responds
200 with exactly the JSON object echoing the requested id. -/
theorem get_item_responses (i : Int) (db : Database) :
    (db.connected = false →
       get_item i db = .error { status_code := 503, detail := "database unavailable" } ∧
       (render (get_item i db)).status_code = 503 ∧
       (render (get_item i db)).bodyLookup "detail" = some (.str "database unavailable")) ∧
    (db.connected = true →
       get_item i db
         = .ok { status_code := 200
                 body := .json (.obj
                   [("item_id", .num i), ("name", .str "example"), ("db", .bool true)]) }) := by
  rcases db with ⟨d, c⟩
  constructor
  · intro h
    cases h
    exact ⟨rfl, rfl, rfl⟩
  · intro h
    cases h
    rfl

/-- C2 witness: evaluated at id 42 on a fresh (disconnected) handle and on
a connected handle. -/
theorem get_item_responses_witness :
    (render (get_item 42 (Database.new none))).status_code = 503 ∧
    get_item 42 ((Database.new none).connect)
      = .ok { status_code := 200
              body := .json (.obj
                [("item_id", .num 42), ("name", .str "example"), ("db", .bool true)]) } :=
  ⟨((get_item_responses 42 (Database.new none)).1 rfl).2.1,
   (get_item_responses 42 ((Database.new none).connect)).2 rfl⟩

/-- C3: When the instrumentation itself does not fail, the middleware
passes the handler outcome through unchanged (re-raising an exception),
increments the request counter for exactly the (method, path, status)
label triple of this request and no other, sets the latency gauge, and
appends exactly one log line. -/
theorem middleware_records_exactly_once (method endpoint : String) (latency : Nat)
    (callNext : Outcome) (m : Metrics) (log : List LogEntry) :
    (add_metrics_and_logging method endpoint latency callNext false false false m log).1
      = callNext ∧
    (add_metrics_and_logging method endpoint latency callNext false false false m log).2.1.requestCount
        (method, endpoint, toString (observedStatus callNext))
      = m.requestCount (method, endpoint, toString (observedStatus callNext)) + 1 ∧
    (∀ l, l ≠ (method, endpoint, toString (observedStatus callNext)) →
      (add_metrics_and_logging method endpoint latency callNext false false false m log).2.1.requestCount l
        = m.requestCount l) ∧
    (add_metrics_and_logging method endpoint latency callNext false false false m log).2.1.requestLatency
        endpoint = some latency ∧
    (add_metrics_and_logging method endpoint latency callNext false false false m log).2.2
      = log ++ [{ method := method, path := endpoint
                  status_code := observedStatus callNext, latency := latency }] := by
  refine ⟨?_, ?_, ?_, ?_, ?_⟩
  · simp [add_metrics_and_logging]
  · simp [add_metrics_and_logging]
  · intro l hl
    simp [add_metrics_and_logging, hl]
  · simp [add_metrics_and_logging]
  · simp [add_metrics_and_logging]

/-- C3 witness: a concrete successful GET /health request increments the
("GET", "/health", "200") counter cell and leaves an unrelated cell at its
old value. -/
theorem middleware_records_exactly_once_witness :
    (add_metrics_and_logging "GET" "/health" 3 (.ok { status_code := 200, body := .text "x" })
        false false false
        { requestCount := fun _ => 0, requestLatency := fun _ => none } []).2.1.requestCount
        ("POST", "/other", "200") = 0 :=
  ((middleware_records_exactly_once "GET" "/health" 3
      (.ok { status_code := 200, body := .text "x" })
      { requestCount := fun _ => 0, requestLatency := fun _ => none } []).2.2.1
    ("POST", "/other", "200") (by decide)).trans rfl

/-- C4 counterexample: the claim says a failure raised while emitting the
log line is swallowed, but in the code `logger.info` sits outside the inner
try/except inside the `finally`, so a raising log call replaces the
response: on a concrete successful request with a failing log call the
middleware no longer returns the handler's response. -/
theorem log_failure_breaks_request :
    (add_metrics_and_logging "GET" "/live" 1 (.ok live) false false true
        { requestCount := fun _ => 0, requestLatency := fun _ => none } []).1
      ≠ .ok live := by
  simp [add_metrics_and_logging]

/-- C4 amended: a failure raised by the counter increment or the gauge set
is swallowed (the handler outcome passes through unchanged and the log
line is still emitted); a failure raised by the log emission itself is not
caught. -/
theorem metric_failures_swallowed (method endpoint : String) (latency : Nat)
    (callNext : Outcome) (incRaises setRaises : Bool) (m : Metrics) (log : List LogEntry) :
    (add_metrics_and_logging method endpoint latency callNext incRaises setRaises false m log).1
      = callNext ∧
    (add_metrics_and_logging method endpoint latency callNext incRaises setRaises false m log).2.2
      = log ++ [{ method := method, path := endpoint
                  status_code := observedStatus callNext, latency := latency }] := by
  constructor <;> simp [add_metrics_and_logging]

/-- C5: with debug off the 500 body is exactly the constant detail
"Internal Server Error", so any two exceptions produce identical bodies;
with debug on the body echoes the exception text. -/
theorem exception_handler_no_leak (e e1 e2 : String) :
    generic_exception_handler false e
      = { status_code := 500
          body := .json (.obj [("detail", .str "Internal Server Error")]) } ∧
    generic_exception_handler false e1 = generic_exception_handler false e2 ∧
    generic_exception_handler true e
      = { status_code := 500, body := .json (.obj [("detail", .str e)]) } :=
  ⟨rfl, rfl, rfl⟩

/-- C6: connect() leaves the handle Connected and is idempotent;
disconnect() leaves it Disconnected; is_healthy() is true iff the state is
Connected. -/
theorem database_state_machine (db : Database) :
    (db.connect).connected = true ∧
    (db.connect).connect = db.connect ∧
    (db.connected = true → db.connect = db) ∧
    (db.disconnect).connected = false ∧
    (db.is_healthy = true ↔ db.connected = true) := by
  refine ⟨rfl, rfl, ?_, rfl, Iff.rfl⟩
  intro h
  rcases db with ⟨d, c⟩
  cases h
  rfl

/-- C6 witness: connect() on an already-connected handle is the identity on
a concrete handle. -/
theorem database_state_machine_witness :
    Database.connect { dsn := none, connected := true }
      = { dsn := none, connected := true } :=
  (database_state_machine { dsn := none, connected := true }).2.2.1 rfl

/-- C7: with every configuration environment variable unset, each Settings
field equals its documented default, and TRUSTED_HOSTS defaults to "*". -/
theorem settings_defaults :
    Settings.ofEnv emptyEnv = .ok
      { SERVICE_NAME := "prodstarter-fastapi", ENVIRONMENT := "production", DEBUG := false
        CORS_ORIGINS := "", METRICS_ENABLED := true, DATABASE_DSN := none, REDIS_DSN := none
        OTEL_ENABLED := false, SENTRY_DSN := none, HOST := "0.0.0.0", PORT := 8000 } ∧
    trustedHostsSetting emptyEnv = "*" :=
  ⟨rfl, rfl⟩

/-- C8: the shutdown hook on a never-created handle takes the None branch
and touches nothing; on an existing handle it disconnects it, leaving it
Disconnected. -/
theorem shutdown_safe (db : Database) :
    on_shutdown none = none ∧
    on_shutdown (some db) = some db.disconnect ∧
    (db.disconnect).connected = false :=
  ⟨rfl, rfl, rfl⟩

/-- C9: GET /live returns 200 with constant body "alive" in every database
state, and leaves the singleton untouched (it consults no downstream
state). -/
theorem live_always_alive (dsn : Option String) (uptime : Nat) (g : Option Database) :
    (serve dsn uptime .live g).1 = .ok { status_code := 200, body := .text "alive" } ∧
    (serve dsn uptime .live g).2 = g :=
  ⟨rfl, rfl⟩

/-- C10: get_db lazily constructs and immediately connects the singleton
when none exists and passes an existing handle through unchanged (never
disconnecting per-request); hence every database-dependent endpoint hit
before any handle exists sees a Connected handle and answers 200, and a
503 from these endpoints occurs exactly when an existing handle has its
connected flag false. -/
theorem lazy_singleton_invariant (dsn : Option String) (uptime : Nat) (i : Int)
    (db : Database) :
    (get_db dsn none).1.connected = true ∧
    (get_db dsn none).2 = some ((Database.new dsn).connect) ∧
    get_db dsn (some db) = (db, some db) ∧
    (render (serve dsn uptime .health none).1).status_code = 200 ∧
    (render (serve dsn uptime .ready none).1).status_code = 200 ∧
    (render (serve dsn uptime (.items i) none).1).status_code = 200 ∧
    ((render (serve dsn uptime .health (some db)).1).status_code = 503 ↔ db.connected = false) ∧
    ((render (serve dsn uptime .ready (some db)).1).status_code = 503 ↔ db.connected = false) ∧
    ((render (serve dsn uptime (.items i) (some db)).1).status_code = 503 ↔ db.connected = false) ∧
    (serve dsn uptime .health (some db)).2 = some db ∧
    (serve dsn uptime .ready (some db)).2 = some db ∧
    (serve dsn uptime (.items i) (some db)).2 = some db := by
  rcases db with ⟨d, c⟩
  cases c <;>
    refine ⟨rfl, rfl, rfl, rfl, rfl, rfl, ?_, ?_, ?_, rfl, rfl, rfl⟩ <;>
    simp [serve, get_db, health, ready, get_item, render, Database.is_healthy]

end ProdStarter
